import Mathlib

/-
Verification of the DirectWrite backend adapter of font-kit
(src/loaders/directwrite.rs), as a shallow embedding.

The native DirectWrite engine is external to the repository; it is modelled
as an abstract record of oracles (NativeFontFace) whose fields describe the
data the engine returns to the adapter.  Machine integers are modelled as
Nat/Int with explicit two's-complement wrapping where the Rust code performs
integer casts or release-mode arithmetic.  f32 values that the adapter merely
transports (coordinates, metrics derived from 16/32-bit integers, for which
the conversions in play are exact) are modelled as Rat or Int.
-/

namespace FontKit

/-- Two's-complement interpretation of a 32-bit cast: models Rust release-mode
i32 wrapping arithmetic and the value of an `as i32` cast. -/
def toInt32 (x : Int) : Int := (x + 2147483648) % 4294967296 - 2147483648

/-- Value of an `as usize` cast on a 64-bit target (two's-complement wrap to
an unsigned 64-bit value). -/
def toUSize64 (x : Int) : Nat := (x % 18446744073709551616).toNat

/-- Design-space point, as produced by the outline accumulator.  Coordinates
are f32 in the Rust code; negation of an f32 is exact, so Rat is a faithful
carrier for the arithmetic the adapter performs. -/
structure Point2D where
  x : Rat
  y : Rat
deriving DecidableEq, Repr

/-- Portable path event, mirroring lyon_path::PathEvent as used by the
adapter: MoveTo, LineTo, CubicTo (two control points then endpoint), Close. -/
inductive PathEvent where
  | MoveTo (p : Point2D)
  | LineTo (p : Point2D)
  | CubicTo (ctrl0 ctrl1 p : Point2D)
  | Close
deriving DecidableEq, Repr

/-- One invocation of the native outline callback capability
(dwrote::OutlineBuilder): move_to, line_to, curve_to (cubic), close, with the
raw native (y-down) coordinates. -/
inductive OutlineCallback where
  | moveTo (x y : Rat)
  | lineTo (x y : Rat)
  | curveTo (cp0x cp0y cp1x cp1y x y : Rat)
  | close
deriving DecidableEq, Repr

/-- State of the OutlineBuffer accumulator: the mutex-guarded ordered event
sequence.  The mutex only serializes access; the sequential semantics is the
list of accumulated events. -/
structure OutlineBuffer where
  path_events : List PathEvent
deriving DecidableEq, Repr

/-- OutlineBuffer::new: empty event sequence. -/
def OutlineBuffer.new : OutlineBuffer := ⟨[]⟩

/-- OutlineBuilder::move_to for OutlineBuffer: pushes MoveTo with y negated. -/
def OutlineBuffer.move_to (b : OutlineBuffer) (x y : Rat) : OutlineBuffer :=
  ⟨b.path_events ++ [PathEvent.MoveTo ⟨x, -y⟩]⟩

/-- OutlineBuilder::line_to for OutlineBuffer: pushes LineTo with y negated. -/
def OutlineBuffer.line_to (b : OutlineBuffer) (x y : Rat) : OutlineBuffer :=
  ⟨b.path_events ++ [PathEvent.LineTo ⟨x, -y⟩]⟩

/-- OutlineBuilder::curve_to for OutlineBuffer: pushes CubicTo with the y
coordinate of both control points and of the endpoint negated. -/
def OutlineBuffer.curve_to (b : OutlineBuffer) (cp0x cp0y cp1x cp1y x y : Rat) :
    OutlineBuffer :=
  ⟨b.path_events ++
    [PathEvent.CubicTo ⟨cp0x, -cp0y⟩ ⟨cp1x, -cp1y⟩ ⟨x, -y⟩]⟩

/-- OutlineBuilder::close for OutlineBuffer: pushes Close. -/
def OutlineBuffer.close (b : OutlineBuffer) : OutlineBuffer :=
  ⟨b.path_events ++ [PathEvent.Close]⟩

/-- Dispatch one native callback to the corresponding OutlineBuffer method. -/
def OutlineBuffer.run (b : OutlineBuffer) : OutlineCallback → OutlineBuffer
  | OutlineCallback.moveTo x y => b.move_to x y
  | OutlineCallback.lineTo x y => b.line_to x y
  | OutlineCallback.curveTo cp0x cp0y cp1x cp1y x y =>
      b.curve_to cp0x cp0y cp1x cp1y x y
  | OutlineCallback.close => b.close

/-- Feed a whole native callback sequence, in order, into an OutlineBuffer. -/
def runCallbacks (cbs : List OutlineCallback) (b : OutlineBuffer) : OutlineBuffer :=
  cbs.foldl OutlineBuffer.run b

/-- OutlineBuffer::flush: drains the event sequence, delivering each event in
original order to the path consumer, and leaves the buffer empty.  The first
component is the list of events the consumer receives, the second the buffer
state after the drain. -/
def OutlineBuffer.flush (b : OutlineBuffer) : List PathEvent × OutlineBuffer :=
  (b.path_events, ⟨[]⟩)

/-- DWRITE_FONT_METRICS as exposed by dwrote::FontMetrics.  Field widths
follow the DirectWrite structure: designUnitsPerEm, ascent, descent,
capHeight, xHeight, underlineThickness are UINT16 (modelled as Nat, assumed
below 2^16); lineGap and underlinePosition are INT16 (modelled as Int). -/
structure DWRITE_FONT_METRICS where
  designUnitsPerEm : Nat
  ascent : Nat
  descent : Nat
  lineGap : Int
  capHeight : Nat
  xHeight : Nat
  underlinePosition : Int
  underlineThickness : Nat
deriving DecidableEq, Repr

/-- DWRITE_GLYPH_METRICS as exposed by dwrote.  advanceWidth and
advanceHeight are UINT32 (modelled as Nat, assumed below 2^32); the side
bearings and verticalOriginY are INT32 (modelled as Int, assumed in i32
range). -/
structure DWRITE_GLYPH_METRICS where
  leftSideBearing : Int
  advanceWidth : Nat
  rightSideBearing : Int
  topSideBearing : Int
  advanceHeight : Nat
  bottomSideBearing : Int
  verticalOriginY : Int
deriving DecidableEq, Repr

/-- Abstract model of a native DWriteFontFace handle.  Each field is an
oracle describing what the immutable native object returns to the adapter:

* cmap: the font's character-to-glyph mapping (code point to glyph id), the
  source of truth behind GetGlyphIndices;
* files: the backing font files, each represented by the byte vector that
  FontFile::get_font_file_bytes would return;
* fontMetrics: what dwrite_font.metrics() returns;
* glyphMetrics: what get_design_glyph_metrics returns per u16 glyph id;
* glyphRunOutline: the callback sequence the native engine emits for
  get_glyph_run_outline, as a function of em size, glyph indices, optional
  advances, optional offsets, is_sideways and is_right_to_left. -/
structure NativeFontFace where
  cmap : Nat → Option Nat
  files : List (List Nat)
  fontMetrics : DWRITE_FONT_METRICS
  glyphMetrics : Nat → DWRITE_GLYPH_METRICS
  glyphRunOutline : Rat → List Nat → Option (List Rat) →
    Option (List (Rat × Rat)) → Bool → Bool → List OutlineCallback

/-- IDWriteFontFace::GetGlyphIndices contract (external DirectWrite
behaviour, modelled from the API contract): each code point is mapped to its
cmap glyph index, and to glyph index 0 (the .notdef glyph) when the font has
no mapping for it.  dwrote returns one u16 index per input code point. -/
def NativeFontFace.get_glyph_indices (face : NativeFontFace) (chars : List Nat) :
    List Nat :=
  chars.map (fun c => (face.cmap c).getD 0)

/-- The adapter's Font: the native face handle plus the mutex-guarded
lazily-populated cached-data slot.  The mutex only serializes access; the
sequential semantics is the optional byte buffer. -/
structure Font where
  dwrite_font_face : NativeFontFace
  cached_data : Option (List Nat)

/-- Font::from_native_font: wraps an already-constructed native handle with
an unpopulated cache slot. -/
def Font.from_native_font (face : NativeFontFace) : Font :=
  { dwrite_font_face := face, cached_data := none }

/-- Font::from_bytes: the native engine parses the bytes into a face (the
parsing itself is native and is represented by the face argument); the cache
slot starts populated with the construction bytes. -/
def Font.from_bytes (face : NativeFontFace) (font_data : List Nat) : Font :=
  { dwrite_font_face := face, cached_data := some font_data }

/-- Font::is_monospace: the reference backend returns true unconditionally
(marked FIXME in the source). -/
def Font.is_monospace (_f : Font) : Bool :=
  true

/-- Font::glyph_for_char: queries get_glyph_indices for the single code
point and takes the first entry of the result; the u16 to u32 cast is the
identity on the modelled values. -/
def Font.glyph_for_char (f : Font) (character : Nat) : Option Nat :=
  (f.dwrite_font_face.get_glyph_indices [character]).head?

/-- Modelled from the spec: the portable Metrics snapshot (section 3 of the
spec); the defining module is not among the shown sources.  All fields the
adapter fills are 16-bit native integers whose f32 conversions are exact, so
Int/Nat carry them faithfully. -/
structure Metrics where
  units_per_em : Nat
  ascent : Int
  descent : Int
  line_gap : Int
  cap_height : Int
  x_height : Int
  underline_position : Int
  underline_thickness : Int
deriving DecidableEq, Repr

/-- Font::metrics: copies the native font metrics field by field, negating
the (always non-negative, UINT16) native descent. -/
def Font.metrics (f : Font) : Metrics :=
  let dwrite_metrics := f.dwrite_font_face.fontMetrics
  { units_per_em := dwrite_metrics.designUnitsPerEm
    ascent := (dwrite_metrics.ascent : Int)
    descent := -(dwrite_metrics.descent : Int)
    line_gap := dwrite_metrics.lineGap
    cap_height := (dwrite_metrics.capHeight : Int)
    x_height := (dwrite_metrics.xHeight : Int)
    underline_position := dwrite_metrics.underlinePosition
    underline_thickness := (dwrite_metrics.underlineThickness : Int) }

/-- Modelled from the spec: HintingOptions (sections 3 and 6 of the spec);
the defining module is not among the shown sources.  Variants None,
Vertical(size), Full(size). -/
inductive HintingOptions where
  | None
  | Vertical (size : Rat)
  | Full (size : Rat)
deriving DecidableEq, Repr

/-- Font::outline: builds a fresh OutlineBuffer, asks the native engine for
the glyph run outline of the single glyph (em size = units_per_em as f32,
glyph id cast to u16, no advances, no offsets, not sideways, not RTL), then
flushes the buffer into the path consumer.  The returned list is the event
sequence the consumer receives.  The HintingOptions argument is bound to _
in the source and ignored. -/
def Font.outline (f : Font) (glyph_id : Nat) (_hinting : HintingOptions) :
    List PathEvent :=
  let outline_buffer := OutlineBuffer.new
  let cbs := f.dwrite_font_face.glyphRunOutline
    (((Font.metrics f).units_per_em : Rat)) [glyph_id % 65536]
    Option.none Option.none false false
  (OutlineBuffer.flush (runCallbacks cbs outline_buffer)).1

/-- Integer-valued rectangle: origin plus size, mirroring euclid Rect.  The
source converts the four computed i32 values to f32 at the very end; the
conversion is value-preserving whenever the magnitudes stay below 2^24, so
the exact integer rectangle is the faithful carrier of the computation. -/
structure RectInt where
  origin_x : Int
  origin_y : Int
  width : Int
  height : Int
deriving DecidableEq, Repr

/-- Font::typographic_bounds: reads the native design glyph metrics for the
u16-cast glyph id, casts the UINT32 advances with as i32 (two's-complement
reinterpretation), and combines them with i32 (release-mode wrapping)
arithmetic:
  y_offset = vertical_origin_y + bottom_side_bearing - advance_height,
  width    = advance_width - (left_side_bearing + right_side_bearing),
  height   = advance_height - (top_side_bearing + bottom_side_bearing),
returning Rect::new(Point2D::new(left_side_bearing, y_offset),
Size2D::new(width, height)). -/
def Font.typographic_bounds (f : Font) (glyph_id : Nat) : RectInt :=
  let m := f.dwrite_font_face.glyphMetrics (glyph_id % 65536)
  let advance_width := toInt32 (m.advanceWidth : Int)
  let advance_height := toInt32 (m.advanceHeight : Int)
  let left_side_bearing := m.leftSideBearing
  let right_side_bearing := m.rightSideBearing
  let top_side_bearing := m.topSideBearing
  let bottom_side_bearing := m.bottomSideBearing
  let vertical_origin_y := m.verticalOriginY
  let y_offset :=
    toInt32 (toInt32 (vertical_origin_y + bottom_side_bearing) - advance_height)
  let width :=
    toInt32 (advance_width - toInt32 (left_side_bearing + right_side_bearing))
  let height :=
    toInt32 (advance_height - toInt32 (top_side_bearing + bottom_side_bearing))
  { origin_x := left_side_bearing
    origin_y := y_offset
    width := width
    height := height }

/-- Result of one Font::font_data call: the bytes the returned FontData view
derefs to (none when the call returns None), the handle state after the
call, and whether the call invoked get_font_file_bytes on a native backing
file. -/
structure FontDataResult where
  result : Option (List Nat)
  font : Font
  fetched : Bool

/-- Font::font_data: under the cached_data lock, if the slot is empty and
the native face has a first backing file, populate the slot with that file's
bytes; then return None if the slot is still empty, otherwise a view of the
slot's buffer. -/
def Font.font_data (f : Font) : FontDataResult :=
  match f.cached_data with
  | some b => { result := some b, font := f, fetched := false }
  | none =>
    match f.dwrite_font_face.files.head? with
    | some file_bytes =>
      { result := some file_bytes
        font := { f with cached_data := some file_bytes }
        fetched := true }
    | none => { result := none, font := f, fetched := false }

/-- State of a handle after n successive font_data calls. -/
def font_data_iter (f : Font) : Nat → Font
  | 0 => f
  | n + 1 => (Font.font_data (font_data_iter f n)).font

/-- Modelled from the spec: RasterizationOptions (sections 3 and 6 of the
spec); the defining module is not among the shown sources.  Variants
Bilevel, GrayscaleAa, SubpixelAa. -/
inductive RasterizationOptions where
  | bilevel
  | grayscaleAa
  | subpixelAa
deriving DecidableEq, Repr

/-- Modelled from the spec: the canvas pixel Format (sections 3 and 6 of the
spec); the defining module is not among the shown sources.  Variants A8,
RGB24, RGBA32. -/
inductive Format where
  | a8
  | rgb24
  | rgba32
deriving DecidableEq, Repr

/-- Modelled from the spec: Format::bits_per_pixel lives in the canvas
module, absent from the shown sources; section 4.1 of the spec gives
A8 = 1 byte/pixel, RGB24 = 3 bytes/pixel, RGBA32 = 4 bytes/pixel, and the
adapter divides this bit count by 8 to get bytes. -/
def Format.bits_per_pixel : Format → Nat
  | Format.a8 => 8
  | Format.rgb24 => 24
  | Format.rgba32 => 32

/-- The two native DirectWrite rendering modes the adapter selects between:
DWRITE_RENDERING_MODE_ALIASED and DWRITE_RENDERING_MODE_NATURAL. -/
inductive DWriteRenderingMode where
  | aliased
  | natural
deriving DecidableEq, Repr

/-- The two native DirectWrite texture types the adapter selects between:
DWRITE_TEXTURE_ALIASED_1x1 and DWRITE_TEXTURE_CLEARTYPE_3x1. -/
inductive DWriteTextureType where
  | aliased1x1
  | cleartype3x1
deriving DecidableEq, Repr

/-- Native RECT returned by get_alpha_texture_bounds (i32 fields, modelled
as Int assumed in i32 range). -/
structure TextureBoundsRect where
  left : Int
  top : Int
  right : Int
  bottom : Int
deriving DecidableEq, Repr

/-- Rendering-mode selection inside Font::build_glyph_analysis: Bilevel maps
to aliased rendering, GrayscaleAa and SubpixelAa to natural rendering. -/
def build_glyph_analysis_rendering_mode (o : RasterizationOptions) :
    DWriteRenderingMode :=
  match o with
  | RasterizationOptions.bilevel => DWriteRenderingMode.aliased
  | RasterizationOptions.grayscaleAa | RasterizationOptions.subpixelAa =>
      DWriteRenderingMode.natural

/-- The derived values Font::rasterize_glyph computes between building the
glyph analysis and calling canvas.blit_from. -/
structure RasterizePlan where
  rendering_mode : DWriteRenderingMode
  texture_type : DWriteTextureType
  texture_format : Format
  texture_bytes_per_pixel : Nat
  texture_width : Int
  texture_height : Int
  texture_stride : Nat
deriving DecidableEq, Repr

/-- Font::rasterize_glyph, restricted to its pure mode/layout computation:
the rendering mode chosen by build_glyph_analysis, the texture type chosen
from the rasterization options, the canvas-facing format chosen by comparing
the texture type with DWRITE_TEXTURE_ALIASED_1x1, bytes per pixel as
bits_per_pixel / 8, the texture width/height from the native texture bounds
(i32 subtraction), and the stride passed to blit_from, width as usize times
bytes per pixel (usize wrapping). -/
def rasterize_glyph_plan (o : RasterizationOptions)
    (texture_bounds : TextureBoundsRect) : RasterizePlan :=
  let rendering_mode := build_glyph_analysis_rendering_mode o
  let texture_type := match o with
    | RasterizationOptions.bilevel => DWriteTextureType.aliased1x1
    | RasterizationOptions.grayscaleAa | RasterizationOptions.subpixelAa =>
        DWriteTextureType.cleartype3x1
  let texture_format :=
    if texture_type = DWriteTextureType.aliased1x1 then Format.a8
    else Format.rgb24
  let texture_bits_per_pixel := texture_format.bits_per_pixel
  let texture_bytes_per_pixel := texture_bits_per_pixel / 8
  let texture_width := toInt32 (texture_bounds.right - texture_bounds.left)
  let texture_height := toInt32 (texture_bounds.bottom - texture_bounds.top)
  let texture_stride :=
    (toUSize64 texture_width * texture_bytes_per_pixel) % 18446744073709551616
  { rendering_mode := rendering_mode
    texture_type := texture_type
    texture_format := texture_format
    texture_bytes_per_pixel := texture_bytes_per_pixel
    texture_width := texture_width
    texture_height := texture_height
    texture_stride := texture_stride }

/-- Spec-side translation of one native outline callback into the path event
the spec says the consumer must receive: the same kind of event, with every
point's y coordinate negated and its x coordinate unchanged. -/
def callbackToEvent : OutlineCallback → PathEvent
  | OutlineCallback.moveTo x y => PathEvent.MoveTo ⟨x, -y⟩
  | OutlineCallback.lineTo x y => PathEvent.LineTo ⟨x, -y⟩
  | OutlineCallback.curveTo cp0x cp0y cp1x cp1y x y =>
      PathEvent.CubicTo ⟨cp0x, -cp0y⟩ ⟨cp1x, -cp1y⟩ ⟨x, -y⟩
  | OutlineCallback.close => PathEvent.Close

/-- Glyph metrics record with all fields zero, for concrete test faces. -/
def zeroGlyphMetrics : DWRITE_GLYPH_METRICS :=
  { leftSideBearing := 0
    advanceWidth := 0
    rightSideBearing := 0
    topSideBearing := 0
    advanceHeight := 0
    bottomSideBearing := 0
    verticalOriginY := 0 }

/-- Plausible font-wide metrics for concrete test faces. -/
def sampleFontMetrics : DWRITE_FONT_METRICS :=
  { designUnitsPerEm := 1000
    ascent := 800
    descent := 200
    lineGap := 90
    capHeight := 700
    xHeight := 500
    underlinePosition := -100
    underlineThickness := 50 }

/-- Concrete native face whose cmap maps no code point at all. -/
def emptyCmapFace : NativeFontFace :=
  { cmap := fun _ => Option.none
    files := []
    fontMetrics := sampleFontMetrics
    glyphMetrics := fun _ => zeroGlyphMetrics
    glyphRunOutline := fun _ _ _ _ _ _ => [] }

/-- Concrete native face with no backing files, as produced by wrapping a
bare native handle. -/
def nativeOnlyFace : NativeFontFace :=
  { cmap := fun _ => some 1
    files := []
    fontMetrics := sampleFontMetrics
    glyphMetrics := fun _ => zeroGlyphMetrics
    glyphRunOutline := fun _ _ _ _ _ _ => [] }

/-- Plausible per-glyph design metrics for concrete test faces. -/
def sampleGlyphMetrics : DWRITE_GLYPH_METRICS :=
  { leftSideBearing := 1
    advanceWidth := 10
    rightSideBearing := 2
    topSideBearing := 3
    advanceHeight := 12
    bottomSideBearing := 4
    verticalOriginY := 12 }

/-- Concrete native face returning sampleGlyphMetrics for every glyph. -/
def metricsFace : NativeFontFace :=
  { cmap := fun _ => some 1
    files := []
    fontMetrics := sampleFontMetrics
    glyphMetrics := fun _ => sampleGlyphMetrics
    glyphRunOutline := fun _ _ _ _ _ _ => [] }

/-- Helper: a 32-bit wrap is the identity on values already in i32 range. -/
theorem toInt32_eq_self (x : Int) (h0 : -2147483648 ≤ x)
    (h1 : x < 2147483648) : toInt32 x = x := by
  simp only [toInt32]
  omega

/-- Helper: a 64-bit unsigned wrap of a value already in u64 range is plain
Int.toNat. -/
theorem toUSize64_eq_toNat (x : Int) (h0 : 0 ≤ x)
    (h1 : x < 18446744073709551616) : toUSize64 x = x.toNat := by
  simp only [toUSize64]
  omega

/-- Helper: running a callback sequence appends, in order, one translated
event per callback to whatever the buffer already holds. -/
theorem runCallbacks_path_events (cbs : List OutlineCallback) (b : OutlineBuffer) :
    (runCallbacks cbs b).path_events = b.path_events ++ cbs.map callbackToEvent := by
  induction cbs generalizing b with
  | nil => simp [runCallbacks]
  | cons c rest ih =>
    have h1 : runCallbacks (c :: rest) b = runCallbacks rest (b.run c) := rfl
    rw [h1, ih]
    cases c <;>
      simp [OutlineBuffer.run, OutlineBuffer.move_to, OutlineBuffer.line_to,
        OutlineBuffer.curve_to, OutlineBuffer.close, callbackToEvent]

/-- C2: flushing an OutlineBuffer fed with any native callback sequence
delivers one PathEvent per callback, in the original order, with every y
coordinate (control points included) negated and every x unchanged; in
particular MoveTo(0,10), LineTo(5,10), Close yields MoveTo(0,-10),
LineTo(5,-10), Close. -/
theorem outline_accumulator_negates_y :
    (∀ cbs : List OutlineCallback,
      (OutlineBuffer.flush (runCallbacks cbs OutlineBuffer.new)).1 =
        cbs.map callbackToEvent) ∧
    (OutlineBuffer.flush (runCallbacks
        [OutlineCallback.moveTo 0 10, OutlineCallback.lineTo 5 10,
          OutlineCallback.close] OutlineBuffer.new)).1 =
      [PathEvent.MoveTo ⟨0, -10⟩, PathEvent.LineTo ⟨5, -10⟩, PathEvent.Close] := by
  constructor
  · intro cbs
    show (runCallbacks cbs OutlineBuffer.new).path_events = cbs.map callbackToEvent
    rw [runCallbacks_path_events]
    simp [OutlineBuffer.new]
  · decide

/-- C5: the Metrics snapshot always has descent ≤ 0: the native descent is
an unsigned magnitude and the adapter negates it. -/
theorem metrics_descent_nonpos (f : Font) : (Font.metrics f).descent ≤ 0 := by
  simp only [Font.metrics]
  omega

/-- C7: flush empties the accumulator: after any flush the stored sequence
is empty, and a second flush with no intervening callbacks delivers no
events, so already-flushed events are never delivered twice. -/
theorem flush_drains_buffer (b : OutlineBuffer) :
    ((OutlineBuffer.flush b).2).path_events = [] ∧
    (OutlineBuffer.flush ((OutlineBuffer.flush b).2)).1 = [] :=
  ⟨rfl, rfl⟩

/-- C8: outline extraction is independent of the hinting option: two runs on
the same font and glyph that differ only in HintingOptions deliver identical
event sequences. -/
theorem outline_ignores_hinting (f : Font) (glyph_id : Nat)
    (h1 h2 : HintingOptions) :
    Font.outline f glyph_id h1 = Font.outline f glyph_id h2 := rfl

/-- C10: is_monospace returns true for every font, and its value does not
depend on the handle at all. -/
theorem is_monospace_always_true :
    (∀ f : Font, Font.is_monospace f = true) ∧
    (∀ f g : Font, Font.is_monospace f = Font.is_monospace g) :=
  ⟨fun _ => rfl, fun _ _ => rfl⟩

/-- C1: on a font whose cmap has no entry for code point 65, glyph_for_char
returns some 0 — the native .notdef index forwarded as if it were a valid
mapping — and not the explicit no-value result the spec requires.  This is
the code evaluated at the failing input of the reported code bug. -/
theorem glyph_for_char_forwards_notdef :
    emptyCmapFace.cmap 65 = Option.none ∧
    Font.glyph_for_char (Font.from_native_font emptyCmapFace) 65 = some 0 :=
  ⟨rfl, rfl⟩

/-- C3: on a handle with an empty cache slot and zero native backing files,
every font_data call (after any number of earlier calls) returns None and
never invokes the native byte fetch. -/
theorem font_data_no_files_permanent_none (f : Font)
    (hc : f.cached_data = Option.none)
    (hf : f.dwrite_font_face.files = []) :
    ∀ n : Nat,
      (Font.font_data (font_data_iter f n)).result = Option.none ∧
      (Font.font_data (font_data_iter f n)).fetched = false := by
  have key : Font.font_data f =
      { result := Option.none, font := f, fetched := false } := by
    simp [Font.font_data, hc, hf]
  have hiter : ∀ n, font_data_iter f n = f := by
    intro n
    induction n with
    | zero => rfl
    | succ k ih => simp [font_data_iter, ih, key]
  intro n
  rw [hiter n, key]
  exact ⟨rfl, rfl⟩

/-- Witness for C3: a concrete zero-file handle, after two font_data calls a
third still returns None without fetching. -/
theorem font_data_no_files_witness :
    (Font.from_native_font nativeOnlyFace).cached_data = Option.none ∧
    (Font.from_native_font nativeOnlyFace).dwrite_font_face.files = [] ∧
    ((Font.font_data
        (font_data_iter (Font.from_native_font nativeOnlyFace) 2)).result =
          Option.none ∧
      (Font.font_data
        (font_data_iter (Font.from_native_font nativeOnlyFace) 2)).fetched =
          false) :=
  ⟨rfl, rfl,
    font_data_no_files_permanent_none (Font.from_native_font nativeOnlyFace)
      rfl rfl 2⟩

/-- C9: a populated cache slot is final: font_data on a handle whose slot
already holds a buffer returns that buffer, leaves the handle unchanged,
performs no native fetch, and every later call still observes the same
buffer. -/
theorem font_data_cached_slot_immutable (f : Font) (b : List Nat)
    (hc : f.cached_data = some b) :
    Font.font_data f = { result := some b, font := f, fetched := false } ∧
    ∀ n : Nat, (Font.font_data (font_data_iter f n)).result = some b := by
  have key : Font.font_data f =
      { result := some b, font := f, fetched := false } := by
    simp [Font.font_data, hc]
  have hiter : ∀ n, font_data_iter f n = f := by
    intro n
    induction n with
    | zero => rfl
    | succ k ih => simp [font_data_iter, ih, key]
  refine ⟨key, fun n => ?_⟩
  rw [hiter n, key]

/-- Witness for C9: a handle built from bytes [7, 8, 9]; after three
font_data calls the observed buffer is still [7, 8, 9]. -/
theorem font_data_cached_slot_witness :
    (Font.from_bytes nativeOnlyFace [7, 8, 9]).cached_data = some [7, 8, 9] ∧
    (Font.font_data
      (font_data_iter (Font.from_bytes nativeOnlyFace [7, 8, 9]) 3)).result =
        some [7, 8, 9] :=
  ⟨rfl,
    (font_data_cached_slot_immutable (Font.from_bytes nativeOnlyFace [7, 8, 9])
      [7, 8, 9] rfl).2 3⟩

/-- C4: whenever the native glyph metrics and the exact intermediate values
fit in 32-bit signed range (so no cast or wrap changes a value),
typographic_bounds returns exactly the rectangle with x-offset =
leftSideBearing, y-offset = verticalOriginY + bottomSideBearing -
advanceHeight, width = advanceWidth - (leftSideBearing + rightSideBearing),
height = advanceHeight - (topSideBearing + bottomSideBearing). -/
theorem typographic_bounds_formula (f : Font) (glyph_id : Nat)
    (m : DWRITE_GLYPH_METRICS)
    (hm : f.dwrite_font_face.glyphMetrics (glyph_id % 65536) = m)
    (hrange : (m.advanceWidth : Int) < 2147483648 ∧
      (m.advanceHeight : Int) < 2147483648 ∧
      -2147483648 ≤ m.verticalOriginY + m.bottomSideBearing ∧
      m.verticalOriginY + m.bottomSideBearing < 2147483648 ∧
      -2147483648 ≤ m.verticalOriginY + m.bottomSideBearing -
        (m.advanceHeight : Int) ∧
      -2147483648 ≤ m.leftSideBearing + m.rightSideBearing ∧
      m.leftSideBearing + m.rightSideBearing < 2147483648 ∧
      -2147483648 ≤ (m.advanceWidth : Int) -
        (m.leftSideBearing + m.rightSideBearing) ∧
      (m.advanceWidth : Int) -
        (m.leftSideBearing + m.rightSideBearing) < 2147483648 ∧
      -2147483648 ≤ m.topSideBearing + m.bottomSideBearing ∧
      m.topSideBearing + m.bottomSideBearing < 2147483648 ∧
      -2147483648 ≤ (m.advanceHeight : Int) -
        (m.topSideBearing + m.bottomSideBearing) ∧
      (m.advanceHeight : Int) -
        (m.topSideBearing + m.bottomSideBearing) < 2147483648) :
    Font.typographic_bounds f glyph_id =
      { origin_x := m.leftSideBearing
        origin_y := m.verticalOriginY + m.bottomSideBearing -
          (m.advanceHeight : Int)
        width := (m.advanceWidth : Int) -
          (m.leftSideBearing + m.rightSideBearing)
        height := (m.advanceHeight : Int) -
          (m.topSideBearing + m.bottomSideBearing) } := by
  obtain ⟨h1, h2, h3, h4, h5, h6, h7, h8, h9, h10, h11, h12, h13⟩ := hrange
  have e1 : toInt32 (m.advanceWidth : Int) = (m.advanceWidth : Int) :=
    toInt32_eq_self _ (by omega) h1
  have e2 : toInt32 (m.advanceHeight : Int) = (m.advanceHeight : Int) :=
    toInt32_eq_self _ (by omega) h2
  have e3 : toInt32 (m.verticalOriginY + m.bottomSideBearing) =
      m.verticalOriginY + m.bottomSideBearing := toInt32_eq_self _ h3 h4
  have e4 : toInt32 (m.verticalOriginY + m.bottomSideBearing -
        (m.advanceHeight : Int)) =
      m.verticalOriginY + m.bottomSideBearing - (m.advanceHeight : Int) :=
    toInt32_eq_self _ h5 (by omega)
  have e5 : toInt32 (m.leftSideBearing + m.rightSideBearing) =
      m.leftSideBearing + m.rightSideBearing := toInt32_eq_self _ h6 h7
  have e6 : toInt32 ((m.advanceWidth : Int) -
        (m.leftSideBearing + m.rightSideBearing)) =
      (m.advanceWidth : Int) - (m.leftSideBearing + m.rightSideBearing) :=
    toInt32_eq_self _ h8 h9
  have e7 : toInt32 (m.topSideBearing + m.bottomSideBearing) =
      m.topSideBearing + m.bottomSideBearing := toInt32_eq_self _ h10 h11
  have e8 : toInt32 ((m.advanceHeight : Int) -
        (m.topSideBearing + m.bottomSideBearing)) =
      (m.advanceHeight : Int) - (m.topSideBearing + m.bottomSideBearing) :=
    toInt32_eq_self _ h12 h13
  simp only [Font.typographic_bounds, hm, e1, e2, e3, e4, e5, e6, e7, e8]

/-- Witness for C4: concrete metrics (advanceWidth 10, advanceHeight 12,
bearings 1/2/3/4, verticalOriginY 12) give the rectangle (1, 4, 7, 5). -/
theorem typographic_bounds_formula_witness :
    (Font.from_native_font metricsFace).dwrite_font_face.glyphMetrics
      (3 % 65536) = sampleGlyphMetrics ∧
    Font.typographic_bounds (Font.from_native_font metricsFace) 3 =
      { origin_x := 1, origin_y := 4, width := 7, height := 5 } := by
  refine ⟨rfl, ?_⟩
  rw [typographic_bounds_formula (Font.from_native_font metricsFace) 3
    sampleGlyphMetrics rfl (by decide)]
  decide

/-- C6: the rasterization option fully determines the native modes and
derived layout: Bilevel gives aliased rendering, the aliased 1x1 texture
type and format A8; GrayscaleAa and SubpixelAa give natural rendering, the
ClearType 3x1 texture type and format RGB24; and (for texture bounds of
nonnegative i32-range width) the stride passed to the canvas blit equals the
texture width times the bytes per pixel of the derived format. -/
theorem rasterize_glyph_mode_selection (o : RasterizationOptions)
    (tb : TextureBoundsRect)
    (hw1 : tb.left ≤ tb.right)
    (hw2 : tb.right - tb.left < 2147483648) :
    (o = RasterizationOptions.bilevel →
      (rasterize_glyph_plan o tb).rendering_mode =
          DWriteRenderingMode.aliased ∧
      (rasterize_glyph_plan o tb).texture_type =
          DWriteTextureType.aliased1x1 ∧
      (rasterize_glyph_plan o tb).texture_format = Format.a8) ∧
    ((o = RasterizationOptions.grayscaleAa ∨
        o = RasterizationOptions.subpixelAa) →
      (rasterize_glyph_plan o tb).rendering_mode =
          DWriteRenderingMode.natural ∧
      (rasterize_glyph_plan o tb).texture_type =
          DWriteTextureType.cleartype3x1 ∧
      (rasterize_glyph_plan o tb).texture_format = Format.rgb24) ∧
    (rasterize_glyph_plan o tb).texture_stride =
      (tb.right - tb.left).toNat *
        ((rasterize_glyph_plan o tb).texture_format.bits_per_pixel / 8) := by
  have e1 : toInt32 (tb.right - tb.left) = tb.right - tb.left :=
    toInt32_eq_self _ (by omega) hw2
  have e2 : toUSize64 (tb.right - tb.left) = (tb.right - tb.left).toNat :=
    toUSize64_eq_toNat _ (by omega) (by omega)
  have e3 : (tb.right - tb.left).toNat < 2147483648 := by omega
  cases o with
  | bilevel =>
    refine ⟨fun _ => ⟨rfl, rfl, rfl⟩, ?_, ?_⟩
    · intro h
      rcases h with h | h <;> exact absurd h (by decide)
    · simp [rasterize_glyph_plan, build_glyph_analysis_rendering_mode,
        Format.bits_per_pixel, e1, e2]
      omega
  | grayscaleAa =>
    refine ⟨fun h => absurd h (by decide), fun _ => ⟨rfl, rfl, rfl⟩, ?_⟩
    simp [rasterize_glyph_plan, build_glyph_analysis_rendering_mode,
      Format.bits_per_pixel, e1, e2]
    omega
  | subpixelAa =>
    refine ⟨fun h => absurd h (by decide), fun _ => ⟨rfl, rfl, rfl⟩, ?_⟩
    simp [rasterize_glyph_plan, build_glyph_analysis_rendering_mode,
      Format.bits_per_pixel, e1, e2]
    omega

/-- Witness for C6: grayscale antialiasing on texture bounds (0, 0, 5, 7)
gives natural rendering, the ClearType 3x1 texture, format RGB24, and stride
5 times 3 = 15. -/
theorem rasterize_glyph_mode_witness :
    ((0 : Int) ≤ 5 ∧ (5 : Int) - 0 < 2147483648) ∧
    (rasterize_glyph_plan RasterizationOptions.grayscaleAa
        ⟨0, 0, 5, 7⟩).rendering_mode = DWriteRenderingMode.natural ∧
    (rasterize_glyph_plan RasterizationOptions.grayscaleAa
        ⟨0, 0, 5, 7⟩).texture_type = DWriteTextureType.cleartype3x1 ∧
    (rasterize_glyph_plan RasterizationOptions.grayscaleAa
        ⟨0, 0, 5, 7⟩).texture_format = Format.rgb24 ∧
    (rasterize_glyph_plan RasterizationOptions.grayscaleAa
        ⟨0, 0, 5, 7⟩).texture_stride = 15 := by
  have h := rasterize_glyph_mode_selection RasterizationOptions.grayscaleAa
    ⟨0, 0, 5, 7⟩ (by decide) (by decide)
  have hmode := h.2.1 (Or.inl rfl)
  exact ⟨⟨by decide, by decide⟩, hmode.1, hmode.2.1, hmode.2.2,
    (h.2.2).trans (by decide)⟩

end FontKit
